import Mathlib

/-!
# Verification of the orvexaproject HTTP access layer and satellite algorithms

Shallow embedding of the authenticated HTTP access layer of the repository
(the axios request/response interceptors, credential store operations) and of
its satellite algorithms (error-message extraction, attendance status mapping,
working-hours derivation, local/UTC time-of-day conversion).

The repository contains two revisions of the API client:
- `src/src/lib/api.ts` (earlier revision): refresh issued through the global
  axios instance, five-state attendance enum, `parseApiError` without
  violations/title handling;
- `src/unnamed/part_000` (later revision): refresh issued through a bare
  `axios.create` instance, seven-state attendance enum, `parseApiError` with
  violations/title handling, `calculateWorkingHours`.
The control flow of the response interceptor (the 401 refresh-and-retry state
machine) is identical in both revisions; it is embedded once below.  Where the
revisions differ (refresh transport, `parseApiError`, status table) both are
embedded, in the namespaces `ApiTs` and `Part000`.

Modelling conventions:
- `localStorage` holds the two token slots; `getItem` returns a string or
  null, modelled as `Option String`.  JavaScript truthiness of such a value
  (null and the empty string are falsy) is `truthy` below.
- HTTP outcomes are `Except HttpError Nat`: a rejected promise carrying an
  error object (`status = none` models a network failure with no response;
  `eid` is the identity of the error object, so that "passed through
  unchanged" is equality), or a fulfilled response identified by a `Nat`.
- The behaviour of the remote server is an oracle `Script` giving the outcome
  of the refresh call and of the re-issued request.
-/

/-- The credential store: the two `localStorage` slots `accessToken` and
`refreshToken`.  `none` models an absent key. -/
structure Store where
  accessToken : Option String
  refreshToken : Option String
deriving DecidableEq, Repr

/-- JavaScript truthiness of a value read from `localStorage`:
`null` and the empty string are falsy, every other string is truthy. -/
def truthy : Option String → Bool
  | none => false
  | some s => !s.isEmpty

/-- The global request interceptor (`api.ts` lines 35-44, `part_000` lines
342-351): read `accessToken` from the store; if truthy, overwrite the
`Authorization` header of the outgoing request with `Bearer <token>`;
otherwise leave whatever header the caller set. -/
def attachAuth (store : Store) (existing : Option String) : Option String :=
  match store.accessToken with
  | some t => if t.isEmpty then existing else some ("Bearer " ++ t)
  | none => existing

/-- An axios error object: the HTTP status of the response when one was
received (`error.response?.status`), and an identity for the error object so
that pass-through can be stated as equality. -/
structure HttpError where
  status : Option Nat
  eid : Nat
deriving DecidableEq, Repr

instance {ε α : Type} [DecidableEq ε] [DecidableEq α] : DecidableEq (Except ε α) := fun x y =>
  match x, y with
  | Except.ok a, Except.ok b => decidable_of_iff (a = b) (by simp)
  | Except.error a, Except.error b => decidable_of_iff (a = b) (by simp)
  | Except.ok _, Except.error _ => isFalse (by simp)
  | Except.error _, Except.ok _ => isFalse (by simp)

/-- Oracle for the server's behaviour during 401 handling of one logical
request: the outcome of the refresh call (new access token on success) and
the outcome of the re-issued original request. -/
structure Script where
  refreshResult : Except HttpError String
  retryResult : Except HttpError Nat
deriving DecidableEq, Repr

/-- Observable side effects of processing one logical request: how many
refresh calls were made, how many times the original request was re-issued,
and whether the client was redirected to `/login`. -/
structure Effects where
  refreshCalls : Nat
  retries : Nat
  redirect : Bool
deriving DecidableEq, Repr

def Effects.none : Effects := ⟨0, 0, false⟩

def Effects.merge (a b : Effects) : Effects :=
  ⟨a.refreshCalls + b.refreshCalls, a.retries + b.retries, a.redirect || b.redirect⟩

/-- What the response error interceptor asks the HTTP core to do next:
reject the caller's promise with an error, or re-issue the original request
(carrying the given `Authorization` header). -/
inductive InterceptAction where
  | reject : HttpError → InterceptAction
  | retry : Option String → InterceptAction
deriving DecidableEq, Repr

/-- The check `originalRequest.url?.endsWith("/refresh")` of the source,
computed on the underlying character list. -/
def urlEndsWithRefresh (url : String) : Bool :=
  List.isSuffixOf "/refresh".data url.data

/-- The response error interceptor (`api.ts` lines 47-91, `part_000` lines
353-403; identical control flow in both revisions):

- if the error is a 401, the request has not been retried yet
  (`!originalRequest._retry`) and the request is not the refresh endpoint
  itself, then mark the request retried and:
  - if the stored refresh token is falsy: remove both tokens, redirect to
    `/login`, reject with the original error;
  - otherwise call the refresh endpoint; on success store the new access
    token, set the original request's `Authorization` header to the new
    token and re-issue it (the re-issued request passes through the request
    interceptor again, hence `attachAuth`); on failure remove both tokens,
    redirect to `/login`, reject with the refresh error;
- otherwise reject with the error unchanged. -/
def onResponseError (store : Store) (url : String) (alreadyRetried : Bool)
    (e : HttpError) (refreshResult : Except HttpError String) :
    Store × Effects × InterceptAction :=
  if e.status = some 401 ∧ alreadyRetried = false ∧ urlEndsWithRefresh url = false then
    if truthy store.refreshToken then
      match refreshResult with
      | Except.ok newTok =>
          let store1 : Store := ⟨some newTok, store.refreshToken⟩
          (store1, ⟨1, 0, false⟩,
            InterceptAction.retry (attachAuth store1 (some ("Bearer " ++ newTok))))
      | Except.error refreshError =>
          (⟨none, none⟩, ⟨1, 0, true⟩, InterceptAction.reject refreshError)
    else
      (⟨none, none⟩, ⟨0, 0, true⟩, InterceptAction.reject e)
  else
    (store, ⟨0, 0, false⟩, InterceptAction.reject e)

/-- Final result of one logical request through the access layer: the store
left behind, the accumulated side effects, the outcome delivered to the
caller, and the `Authorization` header of the re-issued request when one
was issued. -/
structure RunResult where
  store : Store
  effects : Effects
  outcome : Except HttpError Nat
  retryAuth : Option (Option String)
deriving DecidableEq, Repr

/-- The HTTP core driving the interceptor chain: a fulfilled result is
delivered to the caller; a rejected result is given to the response error
interceptor, whose `retry` directive re-issues the original request (now with
`_retry = true`) and feeds its outcome through the interceptor again.  `fuel`
bounds the number of interceptor passes; the `_retry` flag makes a second
retry impossible, so any fuel of at least 2 is exact (see `run_request`
below, which uses fuel 2). -/
def drive (fuel : Nat) (store : Store) (url : String) (alreadyRetried : Bool)
    (result : Except HttpError Nat) (script : Script) (acc : Effects)
    (auth : Option (Option String)) : RunResult :=
  match result with
  | Except.ok r => ⟨store, acc, Except.ok r, auth⟩
  | Except.error e =>
    match fuel with
    | 0 => ⟨store, acc, Except.error e, auth⟩
    | Nat.succ fuel1 =>
      match onResponseError store url alreadyRetried e script.refreshResult with
      | (store1, ef, InterceptAction.reject e1) =>
          ⟨store1, acc.merge ef, Except.error e1, auth⟩
      | (store1, ef, InterceptAction.retry a) =>
          drive fuel1 store1 url true script.retryResult script
            ((acc.merge ef).merge ⟨0, 1, false⟩) (some a)

/-- One logical request through the access layer: the original request is
issued (its outcome is `firstResult`), and the interceptor chain processes
it starting with `_retry` unset. -/
def runRequest (store : Store) (url : String) (firstResult : Except HttpError Nat)
    (script : Script) : RunResult :=
  drive 2 store url false firstResult script Effects.none none

/-- Success path of `api.login` (`api.ts` lines 251-262, `part_000` lines
629-640): `localStorage.setItem` on both slots. -/
def loginSuccess (_ : Store) (accessToken refreshToken : String) : Store :=
  ⟨some accessToken, some refreshToken⟩

/-- The `api.logout` operation (`api.ts` lines 264-267, `part_000` lines 642-645):
`localStorage.removeItem` on both slots. -/
def logout (_ : Store) : Store :=
  ⟨none, none⟩

/-- Both-or-neither credential invariant: the two slots are both populated or
both empty. -/
def bothOrNeither (s : Store) : Prop :=
  s.accessToken.isSome = s.refreshToken.isSome

instance (s : Store) : Decidable (bothOrNeither s) := by
  unfold bothOrNeither; infer_instance


/-- JavaScript `a || b` where `a` is a possibly-absent string: the result is
`a` when `a` is present and non-empty, else `b`. -/
def jsOr (a : Option String) (b : String) : String :=
  match a with
  | some s => if s.isEmpty then b else s
  | none => b

/-- Result of a JavaScript property access on a plain object literal whose
own entries hold strings: an own (or defaulted) string value, a truthy
function or object inherited from `Object.prototype` (tagged by the property
name), or `undefined`. -/
inductive JsValue where
  | str : String → JsValue
  | inherited : String → JsValue
  | undef : JsValue
deriving DecidableEq, Repr

/-- The property names every plain object literal inherits from
`Object.prototype` (ECMA-262, Annex B accessors included): looking any of
these up on an object literal yields a truthy function or object, never
`undefined`. -/
def objectPrototypeKeys : List String :=
  ["constructor", "hasOwnProperty", "isPrototypeOf", "propertyIsEnumerable",
   "toLocaleString", "toString", "valueOf", "__proto__",
   "__defineGetter__", "__defineSetter__", "__lookupGetter__", "__lookupSetter__"]

/-- JavaScript property access `obj[key]` on a plain object literal with the
own string-valued entries `own`: an own property wins; otherwise the
prototype chain (here `Object.prototype`) is consulted; otherwise the result
is `undefined`. -/
def objGet (own : List (String × String)) (key : String) : JsValue :=
  match own.lookup key with
  | some v => JsValue.str v
  | none =>
    if key ∈ objectPrototypeKeys then JsValue.inherited key else JsValue.undef

/-- JavaScript `v || dflt` on a property-access result: a string is falsy
exactly when empty, an inherited function or object is truthy, `undefined`
is falsy. -/
def jsOrValue (v : JsValue) (dflt : String) : JsValue :=
  match v with
  | JsValue.str s => if s.isEmpty then JsValue.str dflt else JsValue.str s
  | JsValue.inherited k => JsValue.inherited k
  | JsValue.undef => JsValue.str dflt

/-- One element of the `violations` array of a structured error body; the
code reads its `message` field. -/
structure Violation where
  message : String
deriving DecidableEq, Repr

/-- The structured error body `error.response?.data` as far as the extraction
functions read it; each field is `none` when the JSON key is absent. -/
structure ApiErrorData where
  details : Option (List String)
  violations : Option (List Violation)
  message : Option String
  title : Option String
deriving DecidableEq, Repr

namespace ApiTs

/-- The `parseApiError` of the `api.ts` revision (lines 18-27), restricted to the
axios-error branch with response data `data` (`none` models an absent body):
prefer the `details` array joined with ", ", else `message`, else the generic
fallback.  This revision has no `violations`/`title` handling. -/
def parseApiError (data : Option ApiErrorData) : String :=
  match data with
  | none => "Unexpected API error"
  | some d =>
    match d.details with
    | some ds => String.intercalate ", " ds
    | none => jsOr d.message "Unexpected API error"

/-- The status table of `mapAttendanceStatus` (`api.ts` lines 490-499). -/
def statusMap : List (String × String) :=
  [("NOT_MARKED", "not-marked"),
   ("PRESENT", "present"),
   ("ABSENT", "absent"),
   ("LATE", "late"),
   ("HALF_DAY", "half-day")]

/-- The `mapAttendanceStatus` of `api.ts` (lines 490-499):
`statusMap[backendStatus] || 'not-marked'`, where the indexing is JS property
access on an object literal — it consults `Object.prototype` for keys outside
the table, so an inherited-property name yields the truthy inherited member
and the `||` default does not fire for it. -/
def mapAttendanceStatus (backendStatus : String) : JsValue :=
  jsOrValue (objGet statusMap backendStatus) "not-marked"

/-- The `Authorization` header actually sent on the refresh call of the
`api.ts` revision (lines 68-72): the per-request config sets
`Bearer <refresh token>`, but the call goes through the global axios
instance, so the global request interceptor (`attachAuth`) runs on it and
overwrites the header with the stored access token whenever one is
present. -/
def refreshRequestAuth (store : Store) (refreshToken : String) : Option String :=
  attachAuth store (some ("Bearer " ++ refreshToken))

end ApiTs

namespace Part000

/-- The `parseApiError` of the `part_000` revision (lines 317-335), restricted to
the axios-error branch with response data `data`: prefer the `details` array
joined with ", ", else the `violations` array's `message` fields joined with
", ", else `message`, else `title`, else the generic fallback. -/
def parseApiError (data : Option ApiErrorData) : String :=
  match data with
  | none => "Unexpected API error"
  | some d =>
    match d.details with
    | some ds => String.intercalate ", " ds
    | none =>
      match d.violations with
      | some vs => String.intercalate ", " (vs.map Violation.message)
      | none => jsOr d.message (jsOr d.title "Unexpected API error")

/-- The status table of `mapAttendanceStatus` (`part_000` lines 567-578,
seven-state revision). -/
def statusMap : List (String × String) :=
  [("NOT_MARKED", "not-marked"),
   ("CHECK_IN_APPROVAL_REQUESTED", "check-in-requested"),
   ("CHECK_IN_REJECTED", "check-in-rejected"),
   ("CHECKED_IN", "checked-in"),
   ("CHECK_OUT_APPROVAL_REQUESTED", "check-out-requested"),
   ("CHECKED_OUT", "checked-out"),
   ("CHECK_OUT_REJECTED", "check-out-rejected")]

/-- The `mapAttendanceStatus` of `part_000` (lines 567-578):
`statusMap[backendStatus] || 'not-marked'` as JS property access on an
object literal, prototype chain included. -/
def mapAttendanceStatus (backendStatus : String) : JsValue :=
  jsOrValue (objGet statusMap backendStatus) "not-marked"

/-- JavaScript `Number(str)` on the strings occurring in wire clock times,
on the character list of the string: the empty string parses to `0` (a JS
quirk), a digit string to its value, anything else to NaN (`none`).  A JS
number that is NaN is modelled as `none` throughout; arithmetic on `none`
yields `none`, as NaN propagates. -/
def jsNumber (cs : List Char) : Option Nat :=
  if cs.isEmpty then some 0
  else if cs.all Char.isDigit then
    some (cs.foldl (fun n c => n * 10 + (c.toNat - 48)) 0)
  else none

/-- The computation `checkIn.split(':').map(Number)` of `calculateWorkingHours`. -/
def splitNums (s : String) : List (Option Nat) :=
  (s.data.splitOn ':').map jsNumber

/-- The `calculateWorkingHours` helper (`part_000` lines 583-600): `0` when either clock
time is missing (null or empty, JS falsy); otherwise destructure the first
two `Number`-parsed components of each time, form minutes-since-midnight,
and return the difference divided by 60.  A parse failure makes the JS
arithmetic produce NaN (`none` here) — nothing in the body throws, so the
`catch` clause returning 0 is unreachable.  The function is total (never
throws). -/
def calculateWorkingHours : Option String → Option String → Option ℚ
  | some ci, some co =>
    if ci.isEmpty || co.isEmpty then some 0
    else
      let ins := splitNums ci
      let outs := splitNums co
      match ins.getD 0 none, ins.getD 1 none, outs.getD 0 none, outs.getD 1 none with
      | some inHours, some inMinutes, some outHours, some outMinutes =>
          let inTotalMinutes : ℚ := (inHours : ℚ) * 60 + (inMinutes : ℚ)
          let outTotalMinutes : ℚ := (outHours : ℚ) * 60 + (outMinutes : ℚ)
          let diffMinutes := outTotalMinutes - inTotalMinutes
          some (diffMinutes / 60)
      | _, _, _, _ => none
  | _, _ => some 0

/-- The working-hours slot of the attendance view model (`part_000` line
804): `att.otHours || calculateWorkingHours(att.checkIn, att.checkOut)` —
a zero backend hours value is falsy and falls through to the computed
value. -/
def attendanceWorkingHours (otHours : ℚ) (checkIn checkOut : Option String) : Option ℚ :=
  if otHours = 0 then calculateWorkingHours checkIn checkOut else some otHours

/-- The `Authorization` header sent on the refresh call of the `part_000`
revision (lines 375-384): `refreshAxios = axios.create(...)` is a fresh
instance, and interceptors registered on the global axios instance do not
apply to instances created by `axios.create`, so the per-request header
`Bearer <refresh token>` is sent as written. -/
def refreshRequestAuth (refreshToken : String) : Option String :=
  some ("Bearer " ++ refreshToken)

end Part000

/-- The AM/PM period of the 12-hour clock used by the company-settings
page. -/
inductive Period where
  | AM : Period
  | PM : Period
deriving DecidableEq, Repr

/-- `convertLocalTimeToUTC` (companysettings.tsx lines 94-113): normalize the
12-hour time to a 24-hour `hour` (PM adds 12 except at 12 PM; 12 AM becomes
0), build a local `Date` for today at that wall-clock time, and read back the
UTC hour and minute.  The platform's local-to-UTC conversion at a fixed
offset of `off` minutes east of UTC is subtraction of `off` modulo one day
(1440 minutes); the "HH:MM" input string is represented by its parsed hour
and minute fields and the returned "HH:MM:00" string by its hour and minute
(the seconds field is the constant "00"). -/
def convertLocalTimeToUTC (off : Int) (hour12 minute : Nat) (period : Period) : Nat × Nat :=
  let hour : Nat :=
    if period = Period.PM ∧ hour12 ≠ 12 then hour12 + 12
    else if period = Period.AM ∧ hour12 = 12 then 0
    else hour12
  let u : Int := ((hour : Int) * 60 + (minute : Int) - off) % 1440
  ((u / 60).toNat, (u % 60).toNat)

/-- `convertUTCToLocalTime` (companysettings.tsx lines 116-137): build a
`Date` for today at the given UTC wall-clock time, read back local hour and
minute (addition of the fixed offset `off` modulo one day), and derive the
12-hour display: PM iff the local hour is at least 12, display hour
`localHours % 12` with 0 shown as 12. -/
def convertUTCToLocalTime (off : Int) (utcHours utcMinutes : Nat) : Nat × Nat × Period :=
  let l : Int := ((utcHours : Int) * 60 + (utcMinutes : Int) + off) % 1440
  let localHours : Nat := (l / 60).toNat
  let localMinutes : Nat := (l % 60).toNat
  let period : Period := if localHours ≥ 12 then Period.PM else Period.AM
  let displayHours : Nat := if localHours % 12 = 0 then 12 else localHours % 12
  (displayHours, localMinutes, period)

/-- The displayed 12-hour form of a 24-hour local hour, as the UI shows it
and exactly as `convertUTCToLocalTime` derives it: hour 0 is shown as 12 AM,
hour 12 as 12 PM. -/
def display12 (h : Nat) : Nat × Period :=
  (if h % 12 = 0 then 12 else h % 12, if h ≥ 12 then Period.PM else Period.AM)


section InterceptorLemmas

/-- A request already marked retried is never retried again: the interceptor
passes the error through unchanged with no effects. -/
theorem onResponseError_retried (store : Store) (url : String) (e : HttpError)
    (rr : Except HttpError String) :
    onResponseError store url true e rr = (store, ⟨0, 0, false⟩, InterceptAction.reject e) := by
  simp [onResponseError]

/-- A non-401 error is passed through unchanged with no effects. -/
theorem onResponseError_non401 (store : Store) (url : String) (b : Bool) (e : HttpError)
    (rr : Except HttpError String) (h : e.status ≠ some 401) :
    onResponseError store url b e rr = (store, ⟨0, 0, false⟩, InterceptAction.reject e) := by
  simp [onResponseError, h]

/-- A successful first response is delivered unchanged with no effects. -/
theorem runRequest_ok (store : Store) (url : String) (r : Nat) (script : Script) :
    runRequest store url (Except.ok r) script = ⟨store, Effects.none, Except.ok r, none⟩ := rfl

/-- A failure whose status is not 401 is passed through unchanged: no refresh,
no retry, no redirect, store untouched. -/
theorem runRequest_non401 (store : Store) (url : String) (e : HttpError) (script : Script)
    (h : e.status ≠ some 401) :
    runRequest store url (Except.error e) script = ⟨store, Effects.none, Except.error e, none⟩ := by
  simp [runRequest, drive, onResponseError, h, Effects.none, Effects.merge]

/-- A 401 on the refresh endpoint itself is passed through unchanged. -/
theorem runRequest_refreshUrl (store : Store) (url : String) (e : HttpError) (script : Script)
    (h : urlEndsWithRefresh url = true) :
    runRequest store url (Except.error e) script = ⟨store, Effects.none, Except.error e, none⟩ := by
  simp [runRequest, drive, onResponseError, h, Effects.none, Effects.merge]

/-- 401 with a falsy stored refresh token: both slots removed, redirect to
login, original error rejected, no refresh call. -/
theorem runRequest_noRefreshToken (store : Store) (url : String) (e : HttpError) (script : Script)
    (h1 : e.status = some 401) (h2 : urlEndsWithRefresh url = false)
    (h3 : truthy store.refreshToken = false) :
    runRequest store url (Except.error e) script =
      ⟨⟨none, none⟩, ⟨0, 0, true⟩, Except.error e, none⟩ := by
  simp [runRequest, drive, onResponseError, h1, h2, h3, Effects.none, Effects.merge]

/-- 401 with a stored refresh token and a failing refresh call: both slots
removed, redirect to login, the refresh error rejected. -/
theorem runRequest_refreshFail (store : Store) (url : String) (e re : HttpError) (script : Script)
    (h1 : e.status = some 401) (h2 : urlEndsWithRefresh url = false)
    (h3 : truthy store.refreshToken = true) (h4 : script.refreshResult = Except.error re) :
    runRequest store url (Except.error e) script =
      ⟨⟨none, none⟩, ⟨1, 0, true⟩, Except.error re, none⟩ := by
  simp [runRequest, drive, onResponseError, h1, h2, h3, h4, Effects.none, Effects.merge]

/-- 401 with a stored refresh token and a successful refresh call: one refresh,
one re-issue carrying the new bearer token, only the access slot overwritten,
and the re-issued request's outcome delivered unchanged. -/
theorem runRequest_refreshOk (store : Store) (url : String) (e : HttpError) (script : Script)
    (newTok : String)
    (h1 : e.status = some 401) (h2 : urlEndsWithRefresh url = false)
    (h3 : truthy store.refreshToken = true) (h4 : script.refreshResult = Except.ok newTok) :
    runRequest store url (Except.error e) script =
      ⟨⟨some newTok, store.refreshToken⟩, ⟨1, 1, false⟩, script.retryResult,
        some (some ("Bearer " ++ newTok))⟩ := by
  cases hr : script.retryResult with
  | ok r =>
    simp [runRequest, drive, onResponseError, h1, h2, h3, h4, hr,
      Effects.none, Effects.merge, attachAuth]
  | error e2 =>
    simp [runRequest, drive, onResponseError, h1, h2, h3, h4, hr,
      Effects.none, Effects.merge, attachAuth]

end InterceptorLemmas


/-- C1: for every logical request through the access layer, at most one token
refresh and at most one retry are performed.  A request failing with 401
(outside the refresh endpoint) with a stored refresh token and a succeeding
refresh triggers exactly one refresh call and exactly one re-issue of the
original request, and the retried request's outcome — including a second 401
— is delivered to the caller unchanged with no further refresh; any failure
with a status other than 401 is passed through unchanged. -/
theorem refresh_and_retry_at_most_once :
    (∀ (store : Store) (url : String) (first : Except HttpError Nat) (script : Script),
      (runRequest store url first script).effects.refreshCalls ≤ 1 ∧
      (runRequest store url first script).effects.retries ≤ 1) ∧
    (∀ (store : Store) (url : String) (e : HttpError) (script : Script) (newTok : String),
      e.status = some 401 → urlEndsWithRefresh url = false →
      truthy store.refreshToken = true → script.refreshResult = Except.ok newTok →
      (runRequest store url (Except.error e) script).effects.refreshCalls = 1 ∧
      (runRequest store url (Except.error e) script).effects.retries = 1 ∧
      (runRequest store url (Except.error e) script).outcome = script.retryResult) ∧
    (∀ (store : Store) (url : String) (e : HttpError) (script : Script),
      e.status ≠ some 401 →
      runRequest store url (Except.error e) script =
        ⟨store, Effects.none, Except.error e, none⟩) := by
  refine ⟨?_, ?_, ?_⟩
  · intro store url first script
    cases first with
    | ok r => simp [runRequest_ok, Effects.none]
    | error e =>
      by_cases h1 : e.status = some 401
      · by_cases h2 : urlEndsWithRefresh url = true
        · simp [runRequest_refreshUrl store url e script h2, Effects.none]
        · have h2' : urlEndsWithRefresh url = false := by
            simpa using h2
          by_cases h3 : truthy store.refreshToken = true
          · cases h4 : script.refreshResult with
            | ok t => simp [runRequest_refreshOk store url e script t h1 h2' h3 h4]
            | error re => simp [runRequest_refreshFail store url e re script h1 h2' h3 h4]
          · have h3' : truthy store.refreshToken = false := by
              simpa using h3
            simp [runRequest_noRefreshToken store url e script h1 h2' h3']
      · simp [runRequest_non401 store url e script h1, Effects.none]
  · intro store url e script newTok h1 h2 h3 h4
    simp [runRequest_refreshOk store url e script newTok h1 h2 h3 h4]
  · intro store url e script h1
    exact runRequest_non401 store url e script h1

/-- Witness for C1: a concrete request that fails with 401, refreshes
successfully, and whose retried request fails with 401 again; the second 401
is surfaced unchanged after exactly one refresh and one retry. -/
theorem refresh_and_retry_at_most_once_witness :
    (⟨some 401, 7⟩ : HttpError).status = some 401 ∧
    urlEndsWithRefresh "https://h/v1/cmp/emp" = false ∧
    truthy (⟨some "stale", some "rt"⟩ : Store).refreshToken = true ∧
    (⟨Except.ok "new", Except.error ⟨some 401, 9⟩⟩ : Script).refreshResult = Except.ok "new" ∧
    ((runRequest ⟨some "stale", some "rt"⟩ "https://h/v1/cmp/emp"
        (Except.error ⟨some 401, 7⟩)
        ⟨Except.ok "new", Except.error ⟨some 401, 9⟩⟩).effects.refreshCalls = 1 ∧
      (runRequest ⟨some "stale", some "rt"⟩ "https://h/v1/cmp/emp"
        (Except.error ⟨some 401, 7⟩)
        ⟨Except.ok "new", Except.error ⟨some 401, 9⟩⟩).effects.retries = 1 ∧
      (runRequest ⟨some "stale", some "rt"⟩ "https://h/v1/cmp/emp"
        (Except.error ⟨some 401, 7⟩)
        ⟨Except.ok "new", Except.error ⟨some 401, 9⟩⟩).outcome =
        (⟨Except.ok "new", Except.error ⟨some 401, 9⟩⟩ : Script).retryResult) :=
  ⟨by decide, by decide, by decide, by decide,
    refresh_and_retry_at_most_once.2.1 ⟨some "stale", some "rt"⟩ "https://h/v1/cmp/emp"
      ⟨some 401, 7⟩ ⟨Except.ok "new", Except.error ⟨some 401, 9⟩⟩ "new"
      (by decide) (by decide) (by decide) (by decide)⟩

/-- C3: a 401 with no (falsy) stored refresh token clears both token slots,
redirects to the login entry point, and rejects the original call with the
original 401 error, with no refresh call issued. -/
theorem no_refresh_token_logout (store : Store) (url : String) (e : HttpError) (script : Script)
    (h1 : e.status = some 401) (h2 : urlEndsWithRefresh url = false)
    (h3 : truthy store.refreshToken = false) :
    runRequest store url (Except.error e) script =
      ⟨⟨none, none⟩, ⟨0, 0, true⟩, Except.error e, none⟩ :=
  runRequest_noRefreshToken store url e script h1 h2 h3

/-- Witness for C3 at a concrete 401 with an absent refresh token. -/
theorem no_refresh_token_logout_witness :
    (⟨some 401, 7⟩ : HttpError).status = some 401 ∧
    urlEndsWithRefresh "https://h/v1/cmp/emp" = false ∧
    truthy (⟨some "stale", none⟩ : Store).refreshToken = false ∧
    runRequest ⟨some "stale", none⟩ "https://h/v1/cmp/emp" (Except.error ⟨some 401, 7⟩)
        ⟨Except.ok "new", Except.ok 42⟩ =
      ⟨⟨none, none⟩, ⟨0, 0, true⟩, Except.error ⟨some 401, 7⟩, none⟩ :=
  ⟨by decide, by decide, by decide,
    no_refresh_token_logout ⟨some "stale", none⟩ "https://h/v1/cmp/emp" ⟨some 401, 7⟩
      ⟨Except.ok "new", Except.ok 42⟩ (by decide) (by decide) (by decide)⟩

/-- C4: when the refresh call itself fails, both token slots are cleared (no
state with only one token left), the client is redirected to login, and the
original call is rejected with the refresh error. -/
theorem refresh_failure_clears_and_rejects (store : Store) (url : String) (e re : HttpError)
    (script : Script)
    (h1 : e.status = some 401) (h2 : urlEndsWithRefresh url = false)
    (h3 : truthy store.refreshToken = true) (h4 : script.refreshResult = Except.error re) :
    runRequest store url (Except.error e) script =
      ⟨⟨none, none⟩, ⟨1, 0, true⟩, Except.error re, none⟩ :=
  runRequest_refreshFail store url e re script h1 h2 h3 h4

/-- Witness for C4 at a concrete failing refresh. -/
theorem refresh_failure_clears_and_rejects_witness :
    (⟨some 401, 7⟩ : HttpError).status = some 401 ∧
    urlEndsWithRefresh "https://h/v1/cmp/emp" = false ∧
    truthy (⟨some "stale", some "rt"⟩ : Store).refreshToken = true ∧
    (⟨Except.error ⟨some 403, 11⟩, Except.ok 42⟩ : Script).refreshResult =
      Except.error ⟨some 403, 11⟩ ∧
    runRequest ⟨some "stale", some "rt"⟩ "https://h/v1/cmp/emp" (Except.error ⟨some 401, 7⟩)
        ⟨Except.error ⟨some 403, 11⟩, Except.ok 42⟩ =
      ⟨⟨none, none⟩, ⟨1, 0, true⟩, Except.error ⟨some 403, 11⟩, none⟩ :=
  ⟨by decide, by decide, by decide, by decide,
    refresh_failure_clears_and_rejects ⟨some "stale", some "rt"⟩ "https://h/v1/cmp/emp"
      ⟨some 401, 7⟩ ⟨some 403, 11⟩ ⟨Except.error ⟨some 403, 11⟩, Except.ok 42⟩
      (by decide) (by decide) (by decide) (by decide)⟩

/-- C5: on refresh success only the access-token slot is overwritten with the
new token (the refresh-token slot is unchanged, not rotated), the failed
request is re-issued exactly once carrying `Bearer <new token>`, and the
re-issued request's outcome is the final outcome of the original call. -/
theorem refresh_success_frame (store : Store) (url : String) (e : HttpError) (script : Script)
    (newTok : String)
    (h1 : e.status = some 401) (h2 : urlEndsWithRefresh url = false)
    (h3 : truthy store.refreshToken = true) (h4 : script.refreshResult = Except.ok newTok) :
    runRequest store url (Except.error e) script =
      ⟨⟨some newTok, store.refreshToken⟩, ⟨1, 1, false⟩, script.retryResult,
        some (some ("Bearer " ++ newTok))⟩ :=
  runRequest_refreshOk store url e script newTok h1 h2 h3 h4

/-- Witness for C5 at a concrete successful refresh followed by a successful
retry. -/
theorem refresh_success_frame_witness :
    (⟨some 401, 7⟩ : HttpError).status = some 401 ∧
    urlEndsWithRefresh "https://h/v1/cmp/emp" = false ∧
    truthy (⟨some "stale", some "rt"⟩ : Store).refreshToken = true ∧
    (⟨Except.ok "new", Except.ok 42⟩ : Script).refreshResult = Except.ok "new" ∧
    runRequest ⟨some "stale", some "rt"⟩ "https://h/v1/cmp/emp" (Except.error ⟨some 401, 7⟩)
        ⟨Except.ok "new", Except.ok 42⟩ =
      ⟨⟨some "new", some "rt"⟩, ⟨1, 1, false⟩,
        (⟨Except.ok "new", Except.ok 42⟩ : Script).retryResult,
        some (some ("Bearer " ++ "new"))⟩ :=
  ⟨by decide, by decide, by decide, by decide,
    refresh_success_frame ⟨some "stale", some "rt"⟩ "https://h/v1/cmp/emp" ⟨some 401, 7⟩
      ⟨Except.ok "new", Except.ok 42⟩ "new" (by decide) (by decide) (by decide) (by decide)⟩

/-- C10: every credential-writing operation of the access layer preserves the
both-or-neither invariant of the two token slots: login success writes both,
logout removes both, and the 401 handler either removes both, overwrites only
the access token while a refresh token is present, or leaves the store
untouched. -/
theorem credential_both_or_neither_invariant :
    (∀ (s : Store) (accessToken refreshToken : String),
      bothOrNeither (loginSuccess s accessToken refreshToken)) ∧
    (∀ s : Store, bothOrNeither (logout s)) ∧
    (∀ (s : Store) (url : String) (first : Except HttpError Nat) (script : Script),
      bothOrNeither s → bothOrNeither (runRequest s url first script).store) := by
  refine ⟨?_, ?_, ?_⟩
  · intro s a r
    simp [bothOrNeither, loginSuccess]
  · intro s
    simp [bothOrNeither, logout]
  · intro s url first script hinv
    cases first with
    | ok r => simpa [runRequest_ok] using hinv
    | error e =>
      by_cases h1 : e.status = some 401
      · by_cases h2 : urlEndsWithRefresh url = true
        · simpa [runRequest_refreshUrl s url e script h2] using hinv
        · have h2' : urlEndsWithRefresh url = false := by
            simpa using h2
          by_cases h3 : truthy s.refreshToken = true
          · cases h4 : script.refreshResult with
            | ok t =>
              have hs : s.refreshToken.isSome = true := by
                cases hrt : s.refreshToken with
                | none => rw [hrt] at h3; simp [truthy] at h3
                | some v => simp
              simp [runRequest_refreshOk s url e script t h1 h2' h3 h4, bothOrNeither, hs]
            | error re =>
              simp [runRequest_refreshFail s url e re script h1 h2' h3 h4, bothOrNeither]
          · have h3' : truthy s.refreshToken = false := by
              simpa using h3
            simp [runRequest_noRefreshToken s url e script h1 h2' h3', bothOrNeither]
      · simpa [runRequest_non401 s url e script h1] using hinv

/-- Witness for C10: the invariant is preserved through a concrete
refresh-and-retry run starting from a fully populated store. -/
theorem credential_both_or_neither_invariant_witness :
    bothOrNeither ⟨some "a", some "r"⟩ ∧
    bothOrNeither (runRequest ⟨some "a", some "r"⟩ "https://h/v1/cmp/emp"
      (Except.error ⟨some 401, 7⟩) ⟨Except.ok "new", Except.ok 42⟩).store :=
  ⟨by decide,
    credential_both_or_neither_invariant.2.2 ⟨some "a", some "r"⟩ "https://h/v1/cmp/emp"
      (Except.error ⟨some 401, 7⟩) ⟨Except.ok "new", Except.ok 42⟩ (by decide)⟩

/-- C2 evidence: with a stale access token "stale" and refresh token "rt"
stored (the situation in which the 401 handler runs), the refresh call of
the `api.ts` revision — issued through the interceptor-bearing global client
— actually sends `Bearer stale`, the stale access token, and not the refresh
token, contradicting its own comment "Call refresh endpoint with refresh
token"; the `part_000` revision's bare client sends `Bearer rt` as the claim
states. -/
theorem refresh_call_header_divergence :
    ApiTs.refreshRequestAuth ⟨some "stale", some "rt"⟩ "rt" = some "Bearer stale" ∧
    ApiTs.refreshRequestAuth ⟨some "stale", some "rt"⟩ "rt" ≠ some ("Bearer " ++ "rt") ∧
    Part000.refreshRequestAuth "rt" = some ("Bearer " ++ "rt") := by
  refine ⟨by decide, by decide, by decide⟩

/-- C6: the error-message extraction (`part_000` revision, the one with
violations/title handling) prefers, in order: the `details` array joined
with ", "; the `violations` array's `message` fields joined with ", "; the
`message` field; the `title` field; else the generic fallback — and the four
examples of the claim evaluate as stated. -/
theorem parse_api_error_preference :
    (∀ (d : ApiErrorData) (ds : List String), d.details = some ds →
      Part000.parseApiError (some d) = String.intercalate ", " ds) ∧
    (∀ (d : ApiErrorData) (vs : List Violation), d.details = none → d.violations = some vs →
      Part000.parseApiError (some d) = String.intercalate ", " (vs.map Violation.message)) ∧
    (∀ d : ApiErrorData, d.details = none → d.violations = none →
      Part000.parseApiError (some d) = jsOr d.message (jsOr d.title "Unexpected API error")) ∧
    Part000.parseApiError (some ⟨some ["Invalid Password!"], none, none, none⟩) =
      "Invalid Password!" ∧
    Part000.parseApiError (some ⟨none, some [⟨"a"⟩, ⟨"b"⟩], none, none⟩) = "a, b" ∧
    Part000.parseApiError (some ⟨none, none, some "X", none⟩) = "X" ∧
    Part000.parseApiError (some ⟨none, none, none, some "T"⟩) = "T" ∧
    Part000.parseApiError (some ⟨none, none, none, none⟩) = "Unexpected API error" := by
  refine ⟨?_, ?_, ?_, by decide, by decide, by decide, by decide, by decide⟩
  · intro d ds h
    simp [Part000.parseApiError, h]
  · intro d vs h1 h2
    simp [Part000.parseApiError, h1, h2]
  · intro d h1 h2
    simp [Part000.parseApiError, h1, h2]

/-- Witness for C6: the details-first preference applied to a body carrying
every field at once. -/
theorem parse_api_error_preference_witness :
    (⟨some ["Invalid Password!"], some [⟨"a"⟩], some "m", some "t"⟩ : ApiErrorData).details =
      some ["Invalid Password!"] ∧
    Part000.parseApiError (some ⟨some ["Invalid Password!"], some [⟨"a"⟩], some "m", some "t"⟩) =
      String.intercalate ", " ["Invalid Password!"] :=
  ⟨by decide,
    parse_api_error_preference.1 ⟨some ["Invalid Password!"], some [⟨"a"⟩], some "m", some "t"⟩
      ["Invalid Password!"] (by decide)⟩

/-- Counterexample for C8: the status tables are plain object literals, so
the JS indexing `statusMap[backendStatus]` consults `Object.prototype` for
keys outside the table — `mapAttendanceStatus("toString")` returns the
truthy inherited `Object.prototype.toString`, not `"not-marked"`, in both
revisions. -/
theorem attendance_status_prototype_counterexample :
    ApiTs.mapAttendanceStatus "toString" = JsValue.inherited "toString" ∧
    ApiTs.mapAttendanceStatus "toString" ≠ JsValue.str "not-marked" ∧
    Part000.mapAttendanceStatus "toString" = JsValue.inherited "toString" ∧
    Part000.mapAttendanceStatus "toString" ≠ JsValue.str "not-marked" := by
  refine ⟨by decide, by decide, by decide, by decide⟩

/-- C8 (amended): the backend-to-frontend attendance status mapping of each
revision is a total function (it cannot throw); it sends every backend
string of its table to the fixed table entry, and every string that is
neither a table key nor the name of a property inherited from
`Object.prototype` to `"not-marked"`; for an inherited-property name such as
`"toString"` the truthy inherited member is returned instead of the
default. -/
theorem attendance_status_total_amended :
    (ApiTs.mapAttendanceStatus "NOT_MARKED" = JsValue.str "not-marked" ∧
      ApiTs.mapAttendanceStatus "PRESENT" = JsValue.str "present" ∧
      ApiTs.mapAttendanceStatus "ABSENT" = JsValue.str "absent" ∧
      ApiTs.mapAttendanceStatus "LATE" = JsValue.str "late" ∧
      ApiTs.mapAttendanceStatus "HALF_DAY" = JsValue.str "half-day") ∧
    (Part000.mapAttendanceStatus "NOT_MARKED" = JsValue.str "not-marked" ∧
      Part000.mapAttendanceStatus "CHECK_IN_APPROVAL_REQUESTED" =
        JsValue.str "check-in-requested" ∧
      Part000.mapAttendanceStatus "CHECK_IN_REJECTED" = JsValue.str "check-in-rejected" ∧
      Part000.mapAttendanceStatus "CHECKED_IN" = JsValue.str "checked-in" ∧
      Part000.mapAttendanceStatus "CHECK_OUT_APPROVAL_REQUESTED" =
        JsValue.str "check-out-requested" ∧
      Part000.mapAttendanceStatus "CHECKED_OUT" = JsValue.str "checked-out" ∧
      Part000.mapAttendanceStatus "CHECK_OUT_REJECTED" = JsValue.str "check-out-rejected") ∧
    (∀ s : String, s ≠ "NOT_MARKED" → s ≠ "PRESENT" → s ≠ "ABSENT" → s ≠ "LATE" →
      s ≠ "HALF_DAY" → s ∉ objectPrototypeKeys →
      ApiTs.mapAttendanceStatus s = JsValue.str "not-marked") ∧
    (∀ s : String, s ≠ "NOT_MARKED" → s ≠ "CHECK_IN_APPROVAL_REQUESTED" →
      s ≠ "CHECK_IN_REJECTED" → s ≠ "CHECKED_IN" → s ≠ "CHECK_OUT_APPROVAL_REQUESTED" →
      s ≠ "CHECKED_OUT" → s ≠ "CHECK_OUT_REJECTED" → s ∉ objectPrototypeKeys →
      Part000.mapAttendanceStatus s = JsValue.str "not-marked") ∧
    (∀ s : String, s ∈ objectPrototypeKeys → ApiTs.statusMap.lookup s = none →
      ApiTs.mapAttendanceStatus s = JsValue.inherited s) ∧
    (∀ s : String, s ∈ objectPrototypeKeys → Part000.statusMap.lookup s = none →
      Part000.mapAttendanceStatus s = JsValue.inherited s) := by
  refine ⟨by refine ⟨by decide, by decide, by decide, by decide, by decide⟩,
    by refine ⟨by decide, by decide, by decide, by decide, by decide, by decide, by decide⟩,
    ?_, ?_, ?_, ?_⟩
  · intro s r1 r2 r3 r4 r5 hproto
    have b1 := beq_eq_false_iff_ne.mpr r1
    have b2 := beq_eq_false_iff_ne.mpr r2
    have b3 := beq_eq_false_iff_ne.mpr r3
    have b4 := beq_eq_false_iff_ne.mpr r4
    have b5 := beq_eq_false_iff_ne.mpr r5
    simp [ApiTs.mapAttendanceStatus, ApiTs.statusMap, objGet, jsOrValue, List.lookup,
      b1, b2, b3, b4, b5, hproto]
  · intro s r1 r2 r3 r4 r5 r6 r7 hproto
    have b1 := beq_eq_false_iff_ne.mpr r1
    have b2 := beq_eq_false_iff_ne.mpr r2
    have b3 := beq_eq_false_iff_ne.mpr r3
    have b4 := beq_eq_false_iff_ne.mpr r4
    have b5 := beq_eq_false_iff_ne.mpr r5
    have b6 := beq_eq_false_iff_ne.mpr r6
    have b7 := beq_eq_false_iff_ne.mpr r7
    simp [Part000.mapAttendanceStatus, Part000.statusMap, objGet, jsOrValue, List.lookup,
      b1, b2, b3, b4, b5, b6, b7, hproto]
  · intro s hproto hlook
    simp [ApiTs.mapAttendanceStatus, objGet, jsOrValue, hlook, hproto]
  · intro s hproto hlook
    simp [Part000.mapAttendanceStatus, objGet, jsOrValue, hlook, hproto]

/-- Witness for C8 (amended): an unknown backend string that is not an
inherited property name maps to "not-marked" in both revisions, and the
inherited key "valueOf" leaks the prototype member. -/
theorem attendance_status_total_amended_witness :
    ApiTs.mapAttendanceStatus "SOMETHING_ELSE" = JsValue.str "not-marked" ∧
    Part000.mapAttendanceStatus "SOMETHING_ELSE" = JsValue.str "not-marked" ∧
    Part000.mapAttendanceStatus "valueOf" = JsValue.inherited "valueOf" :=
  ⟨attendance_status_total_amended.2.2.1 "SOMETHING_ELSE" (by decide) (by decide) (by decide)
      (by decide) (by decide) (by decide),
    attendance_status_total_amended.2.2.2.1 "SOMETHING_ELSE" (by decide) (by decide)
      (by decide) (by decide) (by decide) (by decide) (by decide) (by decide),
    attendance_status_total_amended.2.2.2.2.2 "valueOf" (by decide) (by decide)⟩

/-- Counterexample for C9: `calculateWorkingHours` is not clamped at zero —
with a check-out earlier than the check-in it returns the negative value
`-8` — and a parse failure yields NaN (`none`), not `0`, because nothing in
the body throws and the `catch` clause is unreachable. -/
theorem working_hours_claim_counterexample :
    Part000.calculateWorkingHours (some "17:00:00") (some "09:00:00") = some (-8) ∧
    ((-8 : ℚ) < 0) ∧
    Part000.calculateWorkingHours (some "09:00:00") (some "bad") = none := by
  have h1 : Part000.splitNums "17:00:00" = [some 17, some 0, some 0] := by decide
  have h2 : Part000.splitNums "09:00:00" = [some 9, some 0, some 0] := by decide
  have h3 : Part000.splitNums "bad" = [none] := by decide
  have e1 : ("17:00:00".isEmpty) = false := by decide
  have e2 : ("09:00:00".isEmpty) = false := by decide
  have e3 : ("bad".isEmpty) = false := by decide
  refine ⟨?_, by norm_num, ?_⟩
  · simp [Part000.calculateWorkingHours, h1, h2, e1, e2]
    norm_num
  · simp [Part000.calculateWorkingHours, h2, h3, e2, e3]

/-- C9 (amended): the working-hours derivation returns 0 when either clock
time is missing (null or empty); it never throws (it is a total function,
with NaN — not 0 — as the value of a parse failure, and a negative value
when check-out precedes check-in); the two concrete evaluations of the claim
hold; and a present non-zero backend-reported hours value always takes
precedence over the value computed from the clock times. -/
theorem working_hours_derivation_amended :
    (∀ co, Part000.calculateWorkingHours none co = some 0) ∧
    (∀ ci, Part000.calculateWorkingHours ci none = some 0) ∧
    Part000.calculateWorkingHours (some "09:00:00") (some "09:00:00") = some 0 ∧
    Part000.calculateWorkingHours (some "09:00:00") (some "17:30:00") = some (8.5 : ℚ) ∧
    (∀ (ot : ℚ) (ci co : Option String), ot ≠ 0 →
      Part000.attendanceWorkingHours ot ci co = some ot) := by
  have h1 : Part000.splitNums "09:00:00" = [some 9, some 0, some 0] := by decide
  have h2 : Part000.splitNums "17:30:00" = [some 17, some 30, some 0] := by decide
  have e1 : ("09:00:00".isEmpty) = false := by decide
  have e2 : ("17:30:00".isEmpty) = false := by decide
  refine ⟨fun co => rfl, ?_, ?_, ?_, ?_⟩
  · intro ci
    cases ci <;> rfl
  · simp [Part000.calculateWorkingHours, h1, e1]
  · simp [Part000.calculateWorkingHours, h1, h2, e1, e2]
    norm_num
  · intro ot ci co hot
    simp [Part000.attendanceWorkingHours, hot]

/-- Witness for C9 (amended): a non-zero backend hours value of 8 overrides
the computed clock-time difference. -/
theorem working_hours_derivation_amended_witness :
    ((8 : ℚ) ≠ 0) ∧
    Part000.attendanceWorkingHours 8 (some "09:00:00") (some "17:30:00") = some 8 :=
  ⟨by simp,
    working_hours_derivation_amended.2.2.2.2 8 (some "09:00:00") (some "17:30:00") (by simp)⟩
/-- Normalizing the displayed 12-hour form of an hour in [0, 24) the way
`convertLocalTimeToUTC` does recovers the 24-hour value. -/
theorem display12_normalize (h : Nat) (hh : h < 24) :
    (if (display12 h).2 = Period.PM ∧ (display12 h).1 ≠ 12 then (display12 h).1 + 12
     else if (display12 h).2 = Period.AM ∧ (display12 h).1 = 12 then 0
     else (display12 h).1) = h := by
  interval_cases h <;> decide

/-- C7: under any fixed platform offset, converting the displayed local
12-hour form of any local time (hour in [0,24), minute in [0,60)) to the UTC
wire format and back reproduces the same displayed hour, minute and AM/PM
period — the displayed wall-clock time does not drift across the day
boundary — and local hour 0 is displayed as 12 AM, local hour 12 as
12 PM. -/
theorem time_roundtrip (off : Int) (h m : Nat) (hh : h < 24) (hm : m < 60) :
    convertUTCToLocalTime off
        (convertLocalTimeToUTC off (display12 h).1 m (display12 h).2).1
        (convertLocalTimeToUTC off (display12 h).1 m (display12 h).2).2 =
      ((display12 h).1, m, (display12 h).2) ∧
    display12 0 = (12, Period.AM) ∧ display12 12 = (12, Period.PM) := by
  refine ⟨?_, by decide, by decide⟩
  have hnorm := display12_normalize h hh
  simp only [convertLocalTimeToUTC, convertUTCToLocalTime]
  simp only [hnorm]
  have hlh : ((((((((h : Int) * 60 + (m : Int) - off) % 1440) / 60).toNat : Int) * 60 +
      (((((h : Int) * 60 + (m : Int) - off) % 1440) % 60).toNat : Int) + off) % 1440) / 60).toNat
      = h := by
    omega
  have hlm : ((((((((h : Int) * 60 + (m : Int) - off) % 1440) / 60).toNat : Int) * 60 +
      (((((h : Int) * 60 + (m : Int) - off) % 1440) % 60).toNat : Int) + off) % 1440) % 60).toNat
      = m := by
    omega
  simp only [hlh, hlm]
  simp [display12]

/-- Witness for C7 at local midnight-hour 0:05 under the +05:30 offset
(330 minutes): the round trip reproduces 12:05 AM. -/
theorem time_roundtrip_witness :
    (0 : Nat) < 24 ∧ (5 : Nat) < 60 ∧
    (convertUTCToLocalTime 330
        (convertLocalTimeToUTC 330 (display12 0).1 5 (display12 0).2).1
        (convertLocalTimeToUTC 330 (display12 0).1 5 (display12 0).2).2 =
      ((display12 0).1, 5, (display12 0).2) ∧
      display12 0 = (12, Period.AM) ∧ display12 12 = (12, Period.PM)) :=
  ⟨by decide, by decide, time_roundtrip 330 0 5 (by decide) (by decide)⟩
